import Mathlib
/-!
Verification development for the TMS backend routing system.

Shallow embedding of the distance-matrix cache (`src/core/matrix_manager.py`),
the routing-problem builder (`src/core/solver/data_model.py`), the solver-side
penalty/disjunction and extraction logic (`src/core/solver/ortool_solver.py`)
and the orchestrator (`src/core/solver/controller.py`), together with theorems
settling the specification claims about them.

Conventions used throughout:
- SQLAlchemy tables become Lean lists of structures (a `MatrixMaster` row is a
  `MatrixEntry`, a `GPSMaster` row is a `GPSShop`); queries become list
  operations in source order.
- Python floats (kilometres, minutes, coordinates) become `Rat`.
- The external OSRM provider becomes an oracle function; a `none` result models
  a failed provider call (caught and logged by the source).
- Python exceptions are modelled explicitly: `Except PyError` carries the
  ValueError/TypeError raised by the controller when it unpacks the solver's
  bare routes dict into two variables, and session rollback (both the per-save
  handler and the per-shop handlers of the refresh) resets staged state to the
  last committed state.
- Wall-clock fields (`last_calculated`) are omitted: no claim mentions them.
-/

namespace TMS

/-- One row of the `MatrixMaster` table: a cached pairwise travel cost,
keyed by two shop ids (`matrix_manager.py`). -/
structure MatrixEntry where
  shop_id_1 : Nat
  shop_id_2 : Nat
  shop_code_1 : String
  shop_code_2 : String
  distance_km : Rat
  time_minutes : Rat
  coords : Option (List (Rat × Rat))
  deriving DecidableEq, Repr

/-- Observable state of `DistanceMatrixManager`: the `MatrixMaster` table plus
a log of the (origin, destination) pairs sent to the OSRM provider, so that
claims about provider calls and cache writes can be stated. -/
structure MatrixManagerState where
  cache : List MatrixEntry
  provider_calls : List (Nat × Nat)
  deriving DecidableEq, Repr

/-- Embeds `DistanceMatrixManager.get_distance` (matrix_manager.py lines
295-317). The body only queries `MatrixMaster` for the canonical
`(min, max)` pair: it never invokes the provider and never adds or commits
rows, so the state comes back unchanged. A `none` result models the
`(None, None)` not-found return. -/
def get_distance_run (st : MatrixManagerState) (shop_id_1 shop_id_2 : Nat) :
    Option (Rat × Rat) × MatrixManagerState :=
  if shop_id_1 = shop_id_2 then
    (some (0, 0), st)
  else
    let sid1 := min shop_id_1 shop_id_2
    let sid2 := max shop_id_1 shop_id_2
    match st.cache.find? (fun e => e.shop_id_1 == sid1 && e.shop_id_2 == sid2) with
    | some result => (some (result.distance_km, result.time_minutes), st)
    | none => (none, st)

/-- Pure view of `get_distance` used by the matrix-assembly helpers (state is
irrelevant there because `get_distance` is read-only). -/
def get_distance (cache : List MatrixEntry) (shop_id_1 shop_id_2 : Nat) :
    Option (Rat × Rat) :=
  (get_distance_run ⟨cache, []⟩ shop_id_1 shop_id_2).1

/-- One result dictionary produced by
`DistanceMatrixManager._calculate_single_distance`: the raw (uncanonicalized)
pair of shop ids plus the provider's distance, duration and path geometry. -/
structure DistanceData where
  shop_id_1 : Nat
  shop_id_2 : Nat
  shop_code_1 : String
  shop_code_2 : String
  distance_km : Rat
  time_minutes : Rat
  coords : List (Rat × Rat)
  deriving DecidableEq, Repr

/-- Replaces the first element satisfying `p` by its image under `f`, leaving
the rest untouched. Models the SQLAlchemy in-place update of the row returned
by `.first()`. -/
def updateFirst (p : α → Bool) (f : α → α) : List α → List α
  | [] => []
  | x :: xs => if p x then f x :: xs else x :: updateFirst p f xs

/-- Embeds `DistanceMatrixManager._save_distance_to_db` (matrix_manager.py
lines 235-293): canonicalize the pair to `(min, max)`, swap the codes and
reverse the geometry when the input pair arrived in descending order, then
update the existing `MatrixMaster` row for the canonical pair if one exists,
otherwise insert a new row. An empty geometry is stored as `none`, mirroring
the falsy-list check before `json.dumps`. -/
def save_distance_to_db (cache : List MatrixEntry) (dd : DistanceData) :
    List MatrixEntry :=
  let sid1 := min dd.shop_id_1 dd.shop_id_2
  let sid2 := max dd.shop_id_1 dd.shop_id_2
  let scode1 := if dd.shop_id_1 = sid1 then dd.shop_code_1 else dd.shop_code_2
  let scode2 := if dd.shop_id_1 = sid1 then dd.shop_code_2 else dd.shop_code_1
  let coords := if dd.shop_id_1 = sid1 then dd.coords else dd.coords.reverse
  let stored := if coords.isEmpty then none else some coords
  if (cache.find? (fun e => e.shop_id_1 == sid1 && e.shop_id_2 == sid2)).isSome then
    updateFirst (fun e => e.shop_id_1 == sid1 && e.shop_id_2 == sid2)
      (fun e => { e with distance_km := dd.distance_km,
                         time_minutes := dd.time_minutes, coords := stored })
      cache
  else
    cache ++ [{ shop_id_1 := sid1, shop_id_2 := sid2, shop_code_1 := scode1,
                shop_code_2 := scode2, distance_km := dd.distance_km,
                time_minutes := dd.time_minutes, coords := stored }]

/-- The id pair of a cached row. -/
def entryPair (e : MatrixEntry) : Nat × Nat := (e.shop_id_1, e.shop_id_2)

/-- The id pairs of all cached rows, in table order. -/
def cachePairs (cache : List MatrixEntry) : List (Nat × Nat) :=
  cache.map entryPair

/-- Invariant of the `MatrixMaster` table: every row is stored canonically with
the strictly smaller id first (hence never with equal endpoints), and no id
pair occurs on two rows. -/
def canonicalCache (cache : List MatrixEntry) : Prop :=
  (∀ e ∈ cache, e.shop_id_1 < e.shop_id_2) ∧
  ∀ pr : Nat × Nat, (cachePairs cache).count pr ≤ 1

/-- All rows whose id pair matches the unordered pair `{a, b}`. -/
def entriesForPair (cache : List MatrixEntry) (a b : Nat) : List MatrixEntry :=
  cache.filter (fun e =>
    (e.shop_id_1 == a && e.shop_id_2 == b) || (e.shop_id_1 == b && e.shop_id_2 == a))

/-- Concrete writes used by the C6 witness: the pair (1,5) computed in both
directions. -/
def ddPairBoth : List DistanceData :=
  [⟨1, 5, "A", "B", 7, 9, [(1, 1), (2, 2)]⟩,
   ⟨5, 1, "B", "A", 7, 9, [(2, 2), (1, 1)]⟩]

/-- One row of the `GPSMaster` table (id, code, coordinates and the
matrix-refresh status flag, one of "updated", "to_update", "to_create"). -/
structure GPSShop where
  id : Nat
  shop_code : String
  latitude : Rat
  longitude : Rat
  matrix_status : String
  deriving DecidableEq, Repr

/-- The persistent database state touched by the refresh: the `GPSMaster` and
`MatrixMaster` tables. -/
structure DbState where
  shops : List GPSShop
  matrix : List MatrixEntry
  deriving DecidableEq, Repr

/-- The OSRM provider as an oracle per (origin id, destination id) pair:
distance, duration and path geometry, or `none` for a failed call (the source
catches the failure, logs it and drops that pair). -/
def ProviderOracle : Type :=
  Nat → Nat → Option (Rat × Rat × List (Rat × Rat))

/-- Embeds `DistanceMatrixManager._calculate_single_distance`: one provider
call wrapped into a result dictionary, `none` on provider failure. -/
def calculate_single_distance (provider : ProviderOracle)
    (shop1 shop2 : GPSShop) : Option DistanceData :=
  match provider shop1.id shop2.id with
  | some (d, t, cs) =>
      some ⟨shop1.id, shop2.id, shop1.shop_code, shop2.shop_code, d, t, cs⟩
  | none => none

/-- Embeds `_save_distance_to_db` TOGETHER WITH its exception handler
(matrix_manager.py lines 288-293): on an exception anywhere in the body
(`ok = false`) the handler calls `self.db.rollback()`, which discards every
uncommitted change of the session — including the earlier staged saves of the
current batch — so the staged state falls back to `committed` (the database
state at the last commit); the caller's save loop then simply continues with
the next result. On success the row is saved as usual. -/
def save_distance_to_db_run (committed staged : List MatrixEntry)
    (dd : DistanceData) (ok : Bool) : List MatrixEntry :=
  if ok then save_distance_to_db staged dd else committed

/-- Embeds `DistanceMatrixManager._calculate_distances_threaded`: compute the
distance from `source` to every target (worker results whose provider call
failed are dropped), then — after the barrier, in a single pass — write every
collected result through `_save_distance_to_db`, threading the session
rollback semantics of each save (`saveOk` tells which saves raise; a raising
save resets the staged matrix to `committed`). The thread pool completes
results in nondeterministic order; the embedding uses target order, which the
settled claims do not depend on. -/
def calculate_distances_threaded (provider : ProviderOracle)
    (saveOk : Nat → Nat → Bool) (committed matrix : List MatrixEntry)
    (source : GPSShop) (targets : List GPSShop) :
    List DistanceData × List MatrixEntry :=
  let results := targets.filterMap (calculate_single_distance provider source)
  (results, results.foldl (fun st dd =>
    save_distance_to_db_run committed st dd (saveOk dd.shop_id_1 dd.shop_id_2))
    matrix)

/-- Embeds one iteration body of the pending-shop loop in
`DistanceMatrixManager.process_pending_updates` (matrix_manager.py lines
86-127), i.e. the work staged in the session before the per-shop commit:
reload the shop, compute distances to every already-updated shop and to every
other pending shop with a larger id, save them, and flip the shop's status to
"updated". The rollback baseline of every save in the iteration is the state
committed before it (`st.matrix`): a raising save in the second batch also
discards the staged saves of the first. -/
def process_shop (provider : ProviderOracle) (saveOk : Nat → Nat → Bool)
    (pending_ids : List Nat) (st : DbState) (shop_id : Nat) : DbState :=
  match st.shops.find? (fun s => s.id == shop_id) with
  | none => st
  | some pending_shop =>
    let existing := st.shops.filter (fun s => s.matrix_status == "updated")
    let m1 := (calculate_distances_threaded provider saveOk st.matrix st.matrix
      pending_shop existing).2
    let other_ids := pending_ids.filter (fun sid => shop_id < sid)
    let other := st.shops.filter (fun s => other_ids.contains s.id)
    let m2 := (calculate_distances_threaded provider saveOk st.matrix m1
      pending_shop other).2
    { shops := st.shops.map (fun s =>
        if s.id == shop_id then { s with matrix_status := "updated" } else s),
      matrix := m2 }

/-- A SQLAlchemy session over `DbState`: `committed` is what the database
holds, `staged` additionally carries the session's uncommitted changes. -/
structure DbSession where
  committed : DbState
  staged : DbState
  deriving DecidableEq, Repr

/-- One iteration of the pending loop with its two nested exception handlers:
`computeOk sid = false` models an exception raised anywhere in the per-shop
try block before the commit (the outer handler rolls the session back and
continues); `commitOk sid = false` models `db.commit()` failing (the inner
handler rolls back and continues). A rollback resets the staged state to the
committed one. -/
def refresh_step (provider : ProviderOracle) (computeOk commitOk : Nat → Bool)
    (saveOk : Nat → Nat → Bool) (pending_ids : List Nat) (sess : DbSession)
    (shop_id : Nat) : DbSession :=
  if computeOk shop_id then
    let staged1 := process_shop provider saveOk pending_ids sess.staged shop_id
    if commitOk shop_id then
      { committed := staged1, staged := staged1 }
    else
      { committed := sess.committed, staged := sess.committed }
  else
    { committed := sess.committed, staged := sess.committed }

/-- Embeds `DistanceMatrixManager.process_pending_updates` (matrix_manager.py
lines 47-153): select the pending shops, return unchanged if none; delete the
matrix rows touching every `to_update` shop (committed immediately); then run
the per-shop loop through the session, committing or rolling back per shop. -/
def process_pending_updates (provider : ProviderOracle)
    (computeOk commitOk : Nat → Bool) (saveOk : Nat → Nat → Bool)
    (st0 : DbState) : DbState :=
  let pending := st0.shops.filter (fun s =>
    s.matrix_status == "to_update" || s.matrix_status == "to_create")
  if pending.isEmpty then st0
  else
    let to_update := st0.shops.filter (fun s => s.matrix_status == "to_update")
    let matrix1 := st0.matrix.filter (fun e =>
      to_update.all (fun s => !(e.shop_id_1 == s.id) && !(e.shop_id_2 == s.id)))
    let st1 : DbState := { shops := st0.shops, matrix := matrix1 }
    let pending_ids := pending.map (fun s => s.id)
    (pending_ids.foldl
      (refresh_step provider computeOk commitOk saveOk pending_ids)
      { committed := st1, staged := st1 }).committed

/-- Specification-level description of the refresh (following the spec wording
for the per-location failure contract, to be compared with the embedded
`process_pending_updates`): each pending location is processed independently;
a location whose computation and commit both succeed contributes exactly its
batch, and a failing location contributes nothing — its batch is discarded
while the remaining locations are still processed. -/
def refreshSkipFailures (provider : ProviderOracle)
    (computeOk commitOk : Nat → Bool) (saveOk : Nat → Nat → Bool)
    (st0 : DbState) : DbState :=
  let pending := st0.shops.filter (fun s =>
    s.matrix_status == "to_update" || s.matrix_status == "to_create")
  if pending.isEmpty then st0
  else
    let to_update := st0.shops.filter (fun s => s.matrix_status == "to_update")
    let matrix1 := st0.matrix.filter (fun e =>
      to_update.all (fun s => !(e.shop_id_1 == s.id) && !(e.shop_id_2 == s.id)))
    let st1 : DbState := { shops := st0.shops, matrix := matrix1 }
    let pending_ids := pending.map (fun s => s.id)
    pending_ids.foldl (fun st sid =>
      if computeOk sid && commitOk sid then
        process_shop provider saveOk pending_ids st sid
      else st) st1

/-- Order priority (`models.Priority`). -/
inductive Priority where
  | low
  | medium
  | high
  deriving DecidableEq, Repr

/-- An `Order` row as the problem builder reads it: shop binding, optional
time-window bounds (only their presence matters to the builder's matrix
selection; the raw values are kept abstract as minute counts) and optional
priority (`None` models a missing or falsy priority attribute). -/
structure Order where
  id : Nat
  shop_id : Nat
  time_window_start : Option Nat
  time_window_end : Option Nat
  priority : Option Priority
  deriving DecidableEq, Repr

/-- A vehicle's constraint record (`models.VehicleConstraint`): `none` fields
model NULL columns, and a stored 0 is falsy in the source's `or`-defaulting. -/
structure VehicleConstraint where
  max_distance : Option Nat
  max_visits : Option Nat
  time_window : Option String
  deriving DecidableEq, Repr

/-- A `Vehicles` row as the solver reads it. -/
structure Vehicle where
  id : Nat
  constraint : Option VehicleConstraint
  deriving DecidableEq, Repr

/-- Embeds `ORDataModel._use_time_window` (data_model.py lines 52-57): true
iff some order has BOTH time-window bounds non-null. -/
def use_time_window (orders : List Order) : Bool :=
  orders.any (fun o => o.time_window_start.isSome && o.time_window_end.isSome)

/-- Embeds `ORDataModel._get_vehicle_constrains` (data_model.py lines 59-72):
per-vehicle max distance and max visits, with `or`-defaults (500, 15) applied
to missing constraint records, NULL columns and falsy 0 values. -/
def get_vehicle_constrains (vehicles : List Vehicle) : List Nat × List Nat :=
  (vehicles.map (fun v =>
      match v.constraint with
      | some c =>
        match c.max_distance with
        | some d => if d = 0 then 500 else d
        | none => 500
      | none => 500),
   vehicles.map (fun v =>
      match v.constraint with
      | some c =>
        match c.max_visits with
        | some m => if m = 0 then 15 else m
        | none => 15
      | none => 15))

/-- The penalty the builder derives from one order's priority (missing or
falsy priority defaults to medium): high 100000, low 500, otherwise 5000. -/
def penaltyValue (p : Option Priority) : Nat :=
  match p with
  | some Priority.high => 100000
  | some Priority.low => 500
  | _ => 5000

/-- The `shop_priority_map` dictionary built by `ORDataModel._build_penalties`
(data_model.py lines 94-111): each order assigns its shop's entry, so a later
order for the same shop overwrites an earlier one. -/
def shop_priority_map (orders : List Order) : Nat → Option Nat :=
  orders.foldl
    (fun m o => fun s =>
      if s = o.shop_id then some (penaltyValue o.priority) else m s)
    (fun _ => none)

/-- Embeds the penalty-list assembly of `ORDataModel._build_penalties`
(data_model.py lines 113-120): depot gets 0, every other node its mapped
penalty, defaulting to 5000. -/
def build_penalties (depot_id : Nat) (all_nodes : List Nat)
    (orders : List Order) : List Nat :=
  all_nodes.map (fun node =>
    if node = depot_id then 0
    else (shop_priority_map orders node).getD 5000)

/-- Embeds `DistanceMatrixManager.get_distance_matrix_as_array` composed with
`get_matrix_for_shops` (matrix_manager.py lines 319-370), with the dictionary
inlined: the diagonal (equal ids) is 0, a cached unordered pair contributes
its symmetric distance to both cells, and a missing pair leaves the 0
initialization in place. -/
def get_distance_matrix_as_array (cache : List MatrixEntry)
    (shop_ids : List Nat) : List (List Rat) :=
  shop_ids.map (fun a => shop_ids.map (fun b =>
    if a = b then 0
    else
      match get_distance cache a b with
      | some (d, _) => d
      | none => 0))

/-- Embeds `DistanceMatrixManager.get_time_matrix_as_array` the same way,
reading the duration component. -/
def get_time_matrix_as_array (cache : List MatrixEntry)
    (shop_ids : List Nat) : List (List Rat) :=
  shop_ids.map (fun a => shop_ids.map (fun b =>
    if a = b then 0
    else
      match get_distance cache a b with
      | some (_, t) => t
      | none => 0))

/-- The solver-ready instance returned by `ORDataModel.get_data` (data_model.py
lines 28-42). The `order_groups`, `geo_constrains` and `time_windows` entries
are omitted: no settled claim depends on them. -/
structure ORData where
  matrix : List (List Rat)
  demands : List Nat
  node_mapping : List Nat
  num_vehicles : Nat
  depot : Nat
  max_distance_per_vehicle : List Nat
  max_visits_per_vehicle : List Nat
  penalties : List Nat
  use_time_matrix : Bool
  deriving DecidableEq, Repr

/-- Embeds `ORDataModel.__init__` plus `get_data` (data_model.py lines 9-42):
nodes are the depot followed by the input orders' shop ids in input order; the
selection flag is `_use_time_window(orders) or use_time_windows`; the selected
matrix is the time matrix when that flag holds and the distance matrix
otherwise. -/
def ORDataModel_build (cache : List MatrixEntry) (vehicles : List Vehicle)
    (orders : List Order) (use_time_windows : Bool) (depot_id : Nat) :
    ORData :=
  let shop_ids := orders.map (fun o => o.shop_id)
  let all_nodes := depot_id :: shop_ids
  let distance_matrix := get_distance_matrix_as_array cache all_nodes
  let time_matrix := get_time_matrix_as_array cache all_nodes
  let use_time := use_time_window orders || use_time_windows
  let vc := get_vehicle_constrains vehicles
  { matrix := if use_time then time_matrix else distance_matrix,
    demands := 0 :: List.replicate shop_ids.length 1,
    node_mapping := all_nodes,
    num_vehicles := vc.1.length,
    depot := 0,
    max_distance_per_vehicle := vc.1,
    max_visits_per_vehicle := vc.2,
    penalties := build_penalties depot_id all_nodes orders,
    use_time_matrix := use_time }

/-- Embeds `VRPSolver._add_penalties` (ortool_solver.py lines 215-225) as the
list of disjunctions registered with the routing model: for every node index
from 1 to the end of the matrix, a `(node, penalty)` disjunction is added
unless the node's penalty reaches the mandatory threshold 10000. -/
def add_penalties (data : ORData) : List (Nat × Nat) :=
  (List.range' 1 (data.matrix.length - 1)).filterMap (fun i =>
    if 10000 ≤ data.penalties.getD i 0 then none
    else some (i, data.penalties.getD i 0))

/-- OR-Tools disjunction semantics: an assignment (which non-depot nodes of
`0 .. n-1` are visited) is admissible for the solver only when every unvisited
non-depot node is covered by a registered disjunction — a node with no
disjunction must be visited, and solving fails if that is impossible. -/
def validSolution (disjunctions : List (Nat × Nat)) (n : Nat)
    (visited : Nat → Bool) : Prop :=
  ∀ i, 1 ≤ i → i < n → visited i = false → ∃ p, (i, p) ∈ disjunctions

/-- The per-vehicle route dictionary built by `VRPSolver._extract_solution`,
restricted to its `nodes` entry (the shop-id sequence); the timing and total
fields of the source dictionary bear on no settled claim and are omitted. -/
structure RouteData where
  nodes : List Nat
  deriving DecidableEq, Repr

/-- Embeds the node-walk of `VRPSolver._extract_solution` (ortool_solver.py
lines 248-272) for one vehicle: the chain starts at the vehicle's start index
(which maps to the depot, node index 0), continues through the visited node
indices, and the final end index (again the depot) is appended after the
loop, so the extracted list always holds the start and final depot. -/
def extract_route_nodes (node_mapping : List Nat) (visits : List Nat) :
    List Nat :=
  (0 :: visits).map (fun idx => node_mapping.getD idx 0) ++
    [node_mapping.getD 0 0]

/-- The value `VRPSolver.run_ortools_solver` returns (ortool_solver.py lines
115-119): when OR-Tools finds no solution within the time limit it returns the
two-element TUPLE `(set(), {})`; on success it returns `_extract_solution`'s
bare routes DICT alone (keyed by vehicle index `0 .. num_vehicles - 1`, here a
list by position) — not a tuple. Both controller.py call sites unpack the
return into two variables, which only the tuple survives. -/
inductive SolverReturn where
  | infeasible
  | solved (routes : List RouteData)
  deriving DecidableEq, Repr

/-- The exceptions the controller's unpacking of a `solved` return raises:
`valueError` when the routes dict has a number of keys other than two (wrong
number of values to unpack), `typeError` when it has exactly two keys — the
unpack then binds the keys `0` and `1` to the two variables and the caller's
next use of `routes` (an int) raises. -/
inductive PyError where
  | valueError
  | typeError
  deriving DecidableEq, Repr

/-- Embeds `VRPSolver.run_ortools_solver` (ortool_solver.py lines 31-119): the
search outcome oracle is `none` when OR-Tools finds no solution within the
time limit (the source returns `(set(), {})`) and otherwise one visited-index
list per vehicle, extracted into the per-vehicle routes dict. The `visited`
set of the infeasible tuple is discarded unused by every caller. -/
def run_ortools_solver (node_mapping : List Nat)
    (searchOutcome : Option (List (List Nat))) : SolverReturn :=
  match searchOutcome with
  | none => SolverReturn.infeasible
  | some perVehicleVisits =>
      SolverReturn.solved (perVehicleVisits.map
        (fun visits => ⟨extract_route_nodes node_mapping visits⟩))

/-- One entry of the orchestrator's result lists: vehicle, route path and the
orders attributed to the route (controller.py). -/
structure RouteResult where
  vehicle : Vehicle
  path : RouteData
  orders : List Order
  deriving DecidableEq, Repr

/-- Embeds `Orchestrator._optimize_single_vehicle_route` (controller.py lines
109-119). Line 111 unpacks the solver return into two variables
(`visited, routes = ...`). The infeasible tuple unpacks fine: `routes` is the
empty dict, the condition `routes and 0 in routes and routes[0]["nodes"]` is
false and the method returns `None`. A `solved` return is a bare dict:
unpacking it iterates its keys, so with two keys the variables bind the ints 0
and 1 and `0 in routes` (an int) raises TypeError, and with any other number
of keys line 111 raises ValueError — so the success return of lines 115-119
(with the non-empty-nodes check the claim cites) is unreachable on every
input. -/
def optimize_single_vehicle_route (vehicle : Vehicle) (orders : List Order)
    (searchOutcome : Option (List (List Nat))) :
    Except PyError (Option RouteResult) :=
  match run_ortools_solver (1 :: orders.map (fun o => o.shop_id))
      searchOutcome with
  | SolverReturn.infeasible => Except.ok none
  | SolverReturn.solved routes =>
      if routes.length = 2 then Except.error PyError.typeError
      else Except.error PyError.valueError

/-- Embeds `Orchestrator._optimize_free_vehicles` (controller.py lines
121-133). Line 124 unpacks the solver return into two variables. The
infeasible tuple gives `routes = {}` and the comprehension over
`range(len(routes))` — whose filter keeps only routes with a non-empty
`nodes` list — yields the empty list. A `solved` return is a bare dict:
with two keys the unpack binds `routes` to the int 1 and `len(routes)` at
line 132 raises TypeError, with any other number of keys line 124 raises
ValueError — the comprehension and its nodes filter are unreachable for any
solved outcome. -/
def optimize_free_vehicles (orders : List Order) (vehicles : List Vehicle)
    (searchOutcome : Option (List (List Nat))) :
    Except PyError (List RouteResult) :=
  match run_ortools_solver (1 :: orders.map (fun o => o.shop_id))
      searchOutcome with
  | SolverReturn.infeasible => Except.ok []
  | SolverReturn.solved routes =>
      if routes.length = 2 then Except.error PyError.typeError
      else Except.error PyError.valueError

/-- A `PredefinedRoute` row reduced to what the orchestrator reads: the shop
ids of its `shops` JSON list, in order. -/
structure PredefinedRoute where
  id : Nat
  shops : List Nat
  deriving DecidableEq, Repr

/-- One iteration of the fixed-vehicle loop of
`Orchestrator.optimize_orchestrator` (controller.py lines 59-69): the matching
orders are those input orders whose shop id lies on the vehicle's predefined
route; when some exist the single-vehicle solve runs — an exception raised
there (the unpack of a solved return) propagates and ABORTS the loop before
the removal at line 69 — and a truthy result would be appended; when the
iteration completes, the matching orders are removed from the remaining
pool. -/
def fixed_vehicle_step (orders : List Order)
    (solver : Vehicle → List Order → Option (List (List Nat)))
    (acc : List RouteResult × List Order) (vr : Vehicle × PredefinedRoute) :
    Except PyError (List RouteResult × List Order) :=
  let route_orders := orders.filter (fun o => vr.2.shops.contains o.shop_id)
  if route_orders.isEmpty then
    Except.ok (acc.1, acc.2.filter (fun o => !(route_orders.contains o)))
  else
    match optimize_single_vehicle_route vr.1 route_orders
        (solver vr.1 route_orders) with
    | Except.error e => Except.error e
    | Except.ok (some r) =>
        Except.ok (acc.1 ++ [r],
          acc.2.filter (fun o => !(route_orders.contains o)))
    | Except.ok none =>
        Except.ok (acc.1, acc.2.filter (fun o => !(route_orders.contains o)))

/-- The fixed-vehicle phase of `Orchestrator.optimize_orchestrator`
(controller.py lines 48-76): fold `fixed_vehicle_step` over the fixed
vehicles, starting from no routes and the full order pool; an exception from
any iteration aborts the whole phase. Returns the fixed-route results and the
remaining orders, or the propagated exception. -/
def optimize_orchestrator_fixed (orders : List Order)
    (fixed : List (Vehicle × PredefinedRoute))
    (solver : Vehicle → List Order → Option (List (List Nat))) :
    Except PyError (List RouteResult × List Order) :=
  fixed.foldlM (fixed_vehicle_step orders solver) ([], orders)

/-- The order-pool removal data flow of the fixed loop (controller.py lines
60-69) in isolation: what `remaining_orders` becomes when every iteration
completes — each fixed vehicle filters out of the pool the input orders whose
shop id lies on its route. -/
def remaining_after (orders : List Order)
    (l : List (Vehicle × PredefinedRoute)) (rem : List Order) : List Order :=
  l.foldl (fun rem vr => rem.filter (fun o =>
    !((orders.filter (fun o2 => vr.2.shops.contains o2.shop_id)).contains o)))
    rem

/-- Embeds `Orchestrator.optimize_orchestrator` (controller.py lines 48-76):
fixed-vehicle phase, then — only when free vehicles and remaining orders both
exist — the free-vehicle solve over the remaining pool; exceptions from
either phase propagate to the caller. -/
def optimize_orchestrator (orders : List Order)
    (fixed : List (Vehicle × PredefinedRoute)) (free : List Vehicle)
    (fixed_solver : Vehicle → List Order → Option (List (List Nat)))
    (free_search : Option (List (List Nat))) :
    Except PyError (List RouteResult × List RouteResult) :=
  match optimize_orchestrator_fixed orders fixed fixed_solver with
  | Except.error e => Except.error e
  | Except.ok res =>
      if !free.isEmpty && !res.2.isEmpty then
        match optimize_free_vehicles res.2 free free_search with
        | Except.error e => Except.error e
        | Except.ok freeRoutes => Except.ok (res.1, freeRoutes)
      else Except.ok (res.1, [])

/-- `models.JobStatus`. -/
inductive JobStatus where
  | RUNNING
  | PLANNED
  | COMPLETED
  | FAILED
  deriving DecidableEq, Repr

/-- Embeds `run_optimization_task` (controller.py lines 16-39): run the
orchestrator, save the concatenated route lists into the job (created or
reused with status RUNNING), mark the routed orders active, and finally set
the job status to PLANNED and commit. If any exception reaches the blanket
handler it is only printed: nothing is committed and the job is left with
whatever status it had — modelled as `none`. On the exception-free path the
result is the job's final committed status together with the routes saved
under it; no branch of this flow sets FAILED. -/
def run_optimization_task (orders : List Order)
    (fixed : List (Vehicle × PredefinedRoute)) (free : List Vehicle)
    (fixed_solver : Vehicle → List Order → Option (List (List Nat)))
    (free_search : Option (List (List Nat))) :
    Option (JobStatus × List RouteResult) :=
  match optimize_orchestrator orders fixed free fixed_solver free_search with
  | Except.error _ => none
  | Except.ok res => some (JobStatus.PLANNED, res.1 ++ res.2)

/-- Concrete cache holding the single canonical row (1,5) with distance 7 km
and duration 9 minutes. -/
def cachePair15 : List MatrixEntry :=
  [⟨1, 5, "D", "S", 7, 9, none⟩]

/-- Concrete order for shop 5 carrying a complete 09:00-10:00 time window. -/
def orderTW : Order :=
  ⟨1, 5, some 540, some 600, none⟩

/-- Concrete same-shop order list: high priority, then medium, then high. -/
def ordersHMH : List Order :=
  [⟨1, 5, none, none, some Priority.high⟩,
   ⟨2, 5, none, none, some Priority.medium⟩,
   ⟨3, 5, none, none, some Priority.high⟩]

/-- Concrete same-shop order list: high priority then medium (the medium order
is last). -/
def ordersHM : List Order :=
  [⟨1, 5, none, none, some Priority.high⟩,
   ⟨2, 5, none, none, some Priority.medium⟩]

/-- Concrete built instance over one medium-priority order, used to witness
the disjunction claim. -/
def dataMedium : ORData :=
  ORDataModel_build [] [⟨3, none⟩] [⟨1, 5, none, none, some Priority.medium⟩]
    false 1

/-- Concrete one-order pool for orchestrator-level instances. -/
def ordersShop7 : List Order :=
  [⟨1, 7, none, none, none⟩]

/-- Concrete fixed-vehicle assignment whose predefined route covers shop 7. -/
def fixedCover7 : List (Vehicle × PredefinedRoute) :=
  [(⟨3, none⟩, ⟨1, [7]⟩)]

/-- Concrete `GPSMaster` table for the partial-batch scenario: one pending
shop (id 1) and three already-updated shops. -/
def shopsPartial : List GPSShop :=
  [⟨1, "S", 0, 0, "to_create"⟩, ⟨2, "A", 0, 0, "updated"⟩,
   ⟨3, "B", 0, 0, "updated"⟩, ⟨4, "C", 0, 0, "updated"⟩]

/-- Concrete starting database state for the partial-batch scenario: the four
shops and an empty matrix. -/
def stPartial : DbState :=
  ⟨shopsPartial, []⟩

/-- Concrete provider oracle that answers every pair with distance 5,
duration 6 and no geometry. -/
def providerConst : ProviderOracle :=
  fun _ _ => some (5, 6, [])

/-- Concrete save-failure oracle: exactly the save of the pair (1,3)
raises. -/
def saveOkNot13 : Nat → Nat → Bool :=
  fun a b => !(a == 1 && b == 3)

/-- CLAIM C7: for every pair of location ids and every cache state,
`get_distance(a,b)` returns the same result (and the same final state) as
`get_distance(b,a)`. -/
theorem get_distance_symm (st : MatrixManagerState) (a b : Nat) :
    get_distance_run st a b = get_distance_run st b a := by
  by_cases h : a = b
  · subst h; rfl
  · simp only [get_distance_run, if_neg h, if_neg (Ne.symm h),
      Nat.min_comm a b, Nat.max_comm a b]

theorem updateFirst_map_eq (p : α → Bool) (f : α → α) (g : α → β)
    (hf : ∀ x, g (f x) = g x) (l : List α) :
    (updateFirst p f l).map g = l.map g := by
  induction l with
  | nil => rfl
  | cons x xs ih =>
    by_cases h : p x
    · simp [updateFirst, h, hf]
    · simp [updateFirst, h, ih]

theorem cachePairs_save (cache : List MatrixEntry) (dd : DistanceData) :
    cachePairs (save_distance_to_db cache dd) =
      if (cache.find? (fun e =>
            e.shop_id_1 == min dd.shop_id_1 dd.shop_id_2 &&
            e.shop_id_2 == max dd.shop_id_1 dd.shop_id_2)).isSome then
        cachePairs cache
      else
        cachePairs cache ++
          [(min dd.shop_id_1 dd.shop_id_2, max dd.shop_id_1 dd.shop_id_2)] := by
  unfold save_distance_to_db
  by_cases h :
      (cache.find? (fun e =>
        e.shop_id_1 == min dd.shop_id_1 dd.shop_id_2 &&
        e.shop_id_2 == max dd.shop_id_1 dd.shop_id_2)).isSome
  · simp only [h, if_true]
    unfold cachePairs
    exact updateFirst_map_eq _
      (fun e => { e with
        distance_km := dd.distance_km,
        time_minutes := dd.time_minutes,
        coords := if (if dd.shop_id_1 = min dd.shop_id_1 dd.shop_id_2
            then dd.coords else dd.coords.reverse).isEmpty then none
          else some (if dd.shop_id_1 = min dd.shop_id_1 dd.shop_id_2
            then dd.coords else dd.coords.reverse) })
      entryPair (fun x => rfl) cache
  · simp [h, cachePairs, entryPair]

theorem save_find_none_not_mem (cache : List MatrixEntry) (dd : DistanceData)
    (h : ¬ (cache.find? (fun e =>
        e.shop_id_1 == min dd.shop_id_1 dd.shop_id_2 &&
        e.shop_id_2 == max dd.shop_id_1 dd.shop_id_2)).isSome) :
    (min dd.shop_id_1 dd.shop_id_2, max dd.shop_id_1 dd.shop_id_2) ∉
      cachePairs cache := by
  intro hmem
  rcases List.mem_map.mp hmem with ⟨e, he, hpair⟩
  apply h
  rw [← Option.ne_none_iff_isSome]
  intro hnone
  rw [List.find?_eq_none] at hnone
  apply hnone e he
  have h1 : e.shop_id_1 = min dd.shop_id_1 dd.shop_id_2 := congrArg Prod.fst hpair
  have h2 : e.shop_id_2 = max dd.shop_id_1 dd.shop_id_2 := congrArg Prod.snd hpair
  simp [h1, h2]

/-- Preservation: one `_save_distance_to_db` call on a distinct pair keeps the
canonical-cache invariant. -/
theorem save_distance_preserves_canonical (cache : List MatrixEntry)
    (dd : DistanceData) (hne : dd.shop_id_1 ≠ dd.shop_id_2)
    (h : canonicalCache cache) :
    canonicalCache (save_distance_to_db cache dd) := by
  have hlt : min dd.shop_id_1 dd.shop_id_2 < max dd.shop_id_1 dd.shop_id_2 :=
    lt_of_le_of_ne (min_le_max) (by
      rcases Nat.lt_or_ge dd.shop_id_1 dd.shop_id_2 with hlt | hge
      · rw [Nat.min_eq_left (Nat.le_of_lt hlt), Nat.max_eq_right (Nat.le_of_lt hlt)]
        exact Nat.ne_of_lt hlt
      · have hgt : dd.shop_id_2 < dd.shop_id_1 := lt_of_le_of_ne hge (Ne.symm hne)
        rw [Nat.min_eq_right (Nat.le_of_lt hgt), Nat.max_eq_left (Nat.le_of_lt hgt)]
        exact Nat.ne_of_lt hgt)
  have heq := cachePairs_save cache dd
  by_cases hfind :
      (cache.find? (fun e =>
        e.shop_id_1 == min dd.shop_id_1 dd.shop_id_2 &&
        e.shop_id_2 == max dd.shop_id_1 dd.shop_id_2)).isSome
  · rw [if_pos hfind] at heq
    constructor
    · intro e he
      have hmem : entryPair e ∈ cachePairs cache := by
        rw [← heq]
        exact List.mem_map_of_mem entryPair he
      rcases List.mem_map.mp hmem with ⟨e2, he2, hpair⟩
      have h1 : e2.shop_id_1 = e.shop_id_1 := congrArg Prod.fst hpair
      have h2 : e2.shop_id_2 = e.shop_id_2 := congrArg Prod.snd hpair
      rw [← h1, ← h2]
      exact h.1 e2 he2
    · intro pr
      rw [heq]
      exact h.2 pr
  · rw [if_neg hfind] at heq
    constructor
    · intro e he
      have hmem : entryPair e ∈ cachePairs (save_distance_to_db cache dd) :=
        List.mem_map_of_mem entryPair he
      rw [heq] at hmem
      rcases List.mem_append.mp hmem with hmem | hmem
      · rcases List.mem_map.mp hmem with ⟨e2, he2, hpair⟩
        have h1 : e2.shop_id_1 = e.shop_id_1 := congrArg Prod.fst hpair
        have h2 : e2.shop_id_2 = e.shop_id_2 := congrArg Prod.snd hpair
        rw [← h1, ← h2]
        exact h.1 e2 he2
      · have hpair := List.mem_singleton.mp hmem
        have h1 : e.shop_id_1 = min dd.shop_id_1 dd.shop_id_2 :=
          congrArg Prod.fst hpair
        have h2 : e.shop_id_2 = max dd.shop_id_1 dd.shop_id_2 :=
          congrArg Prod.snd hpair
        rw [h1, h2]
        exact hlt
    · intro pr
      rw [heq, List.count_append]
      by_cases hpr :
          pr = (min dd.shop_id_1 dd.shop_id_2, max dd.shop_id_1 dd.shop_id_2)
      · have hz : (cachePairs cache).count pr = 0 := by
          rw [List.count_eq_zero, hpr]
          exact save_find_none_not_mem cache dd hfind
        rw [hz]
        simp [hpr]
      · have hz : [(min dd.shop_id_1 dd.shop_id_2,
            max dd.shop_id_1 dd.shop_id_2)].count pr = 0 := by
          rw [List.count_eq_zero]
          simp [hpr]
        rw [hz]
        simpa using h.2 pr

theorem filter_length_le_count [BEq β] [LawfulBEq β] (l : List α) (q : α → Bool)
    (g : α → β) (pr : β) (hq : ∀ e ∈ l, q e = true → g e = pr) :
    (l.filter q).length ≤ (l.map g).count pr := by
  induction l with
  | nil => simp
  | cons x xs ih =>
    have ihx := ih (fun e he hqe => hq e (List.mem_cons_of_mem x he) hqe)
    by_cases hx : q x
    · have hgx : g x = pr := hq x (List.mem_cons_self x xs) hx
      simp only [List.filter_cons, hx, if_true, List.length_cons, List.map_cons,
        List.count_cons, hgx, beq_self_eq_true, if_true]
      exact Nat.add_le_add_right ihx 1
    · simp only [List.filter_cons, hx, Bool.false_eq_true, if_false,
        List.map_cons, List.count_cons]
      exact le_trans ihx (Nat.le_add_right _ _)

theorem canonical_entriesForPair (cache : List MatrixEntry)
    (h : canonicalCache cache) (a b : Nat) :
    (entriesForPair cache a b).length ≤ 1 := by
  have hq : ∀ e ∈ cache,
      ((e.shop_id_1 == a && e.shop_id_2 == b) ||
       (e.shop_id_1 == b && e.shop_id_2 == a)) = true →
      entryPair e = (min a b, max a b) := by
    intro e he hqe
    have hcanon := h.1 e he
    rcases (Bool.or_eq_true _ _).mp hqe with hc | hc
    · have h1 : e.shop_id_1 = a := by
        have := (Bool.and_eq_true _ _).mp hc
        exact eq_of_beq this.1
      have h2 : e.shop_id_2 = b := by
        have := (Bool.and_eq_true _ _).mp hc
        exact eq_of_beq this.2
      have hab : a < b := by rw [← h1, ← h2]; exact hcanon
      simp [entryPair, h1, h2, Nat.min_eq_left (Nat.le_of_lt hab),
        Nat.max_eq_right (Nat.le_of_lt hab)]
    · have h1 : e.shop_id_1 = b := by
        have := (Bool.and_eq_true _ _).mp hc
        exact eq_of_beq this.1
      have h2 : e.shop_id_2 = a := by
        have := (Bool.and_eq_true _ _).mp hc
        exact eq_of_beq this.2
      have hba : b < a := by rw [← h1, ← h2]; exact hcanon
      simp [entryPair, h1, h2, Nat.min_eq_right (Nat.le_of_lt hba),
        Nat.max_eq_left (Nat.le_of_lt hba)]
  calc (entriesForPair cache a b).length
      ≤ (cache.map entryPair).count (min a b, max a b) :=
        filter_length_le_count cache _ entryPair (min a b, max a b) hq
    _ ≤ 1 := h.2 (min a b, max a b)

theorem foldl_save_canonical (dds : List DistanceData) :
    ∀ cache, (∀ dd ∈ dds, dd.shop_id_1 ≠ dd.shop_id_2) → canonicalCache cache →
    canonicalCache (dds.foldl save_distance_to_db cache) := by
  induction dds with
  | nil =>
    intro cache _ h
    simpa using h
  | cons dd rest ih =>
    intro cache hdds h
    simp only [List.foldl_cons]
    exact ih _ (fun d hd => hdds d (List.mem_cons_of_mem dd hd))
      (save_distance_preserves_canonical cache dd
        (hdds dd (List.mem_cons_self dd rest)) h)

/-- CLAIM C6: starting from a cache satisfying the canonical invariant, after
any sequence of `_save_distance_to_db` writes for pairs of distinct location
ids — in either order, any number of times — every row still has the strictly
smaller id first (so no row has equal endpoints), no ordered id pair occurs
twice, and each unordered pair `{a, b}` is held by at most one row. -/
theorem save_sequence_single_canonical_entry (cache : List MatrixEntry)
    (dds : List DistanceData)
    (hdds : ∀ dd ∈ dds, dd.shop_id_1 ≠ dd.shop_id_2)
    (h : canonicalCache cache) :
    canonicalCache (dds.foldl save_distance_to_db cache) ∧
    ∀ a b : Nat,
      (entriesForPair (dds.foldl save_distance_to_db cache) a b).length ≤ 1 := by
  have hfold := foldl_save_canonical dds cache hdds h
  exact ⟨hfold, fun a b => canonical_entriesForPair _ hfold a b⟩

/-- Witness for C6 at a concrete input: both write directions for the distinct
pair (1,5) on an initially empty cache. -/
theorem save_sequence_single_canonical_entry_witness :
    (∀ dd ∈ ddPairBoth, dd.shop_id_1 ≠ dd.shop_id_2) ∧
    canonicalCache ([] : List MatrixEntry) ∧
    (canonicalCache (ddPairBoth.foldl save_distance_to_db []) ∧
     ∀ a b : Nat,
       (entriesForPair (ddPairBoth.foldl save_distance_to_db []) a b).length ≤ 1) :=
  ⟨by decide, by simp [canonicalCache, cachePairs],
   save_sequence_single_canonical_entry [] ddPairBoth (by decide)
     (by simp [canonicalCache, cachePairs])⟩

theorem refresh_step_diag (provider : ProviderOracle)
    (computeOk commitOk : Nat → Bool) (saveOk : Nat → Nat → Bool)
    (pending_ids : List Nat) (st : DbState) (sid : Nat) :
    refresh_step provider computeOk commitOk saveOk pending_ids ⟨st, st⟩ sid =
      { committed :=
          if computeOk sid && commitOk sid then
            process_shop provider saveOk pending_ids st sid
          else st,
        staged :=
          if computeOk sid && commitOk sid then
            process_shop provider saveOk pending_ids st sid
          else st } := by
  unfold refresh_step
  by_cases h1 : computeOk sid
  · by_cases h2 : commitOk sid
    · simp [h1, h2]
    · simp [h1, h2]
  · simp [h1]

theorem foldl_refresh_diag (provider : ProviderOracle)
    (computeOk commitOk : Nat → Bool) (saveOk : Nat → Nat → Bool)
    (pending_ids : List Nat) (l : List Nat) :
    ∀ st : DbState,
    l.foldl (refresh_step provider computeOk commitOk saveOk pending_ids)
        ⟨st, st⟩ =
      (fun st2 => (⟨st2, st2⟩ : DbSession))
        (l.foldl (fun st2 sid =>
          if computeOk sid && commitOk sid then
            process_shop provider saveOk pending_ids st2 sid
          else st2) st) := by
  induction l with
  | nil => intro st; rfl
  | cons a rest ih =>
    intro st
    simp only [List.foldl_cons,
      refresh_step_diag provider computeOk commitOk saveOk pending_ids st a]
    exact ih _

theorem process_pending_isolates_failures (provider : ProviderOracle)
    (computeOk commitOk : Nat → Bool) (saveOk : Nat → Nat → Bool)
    (st0 : DbState) :
    process_pending_updates provider computeOk commitOk saveOk st0 =
      refreshSkipFailures provider computeOk commitOk saveOk st0 := by
  unfold process_pending_updates refreshSkipFailures
  by_cases hpend : (st0.shops.filter (fun s =>
      s.matrix_status == "to_update" || s.matrix_status == "to_create")).isEmpty
  · simp [hpend]
  · simp only [hpend, Bool.false_eq_true, if_false]
    rw [foldl_refresh_diag]

/-- CLAIM C2, counterexample: with `use_time_windows = false` and one order
carrying a complete time window, the claim demands the distance matrix, but
the built instance selects the time matrix (the source combines the two
conditions with `or`, not `and`): on the cache holding (1,5) with distance 7
and duration 9, the selected matrix is the duration one. -/
theorem time_matrix_selected_without_request :
    (ORDataModel_build cachePair15 [] [orderTW] false 1).use_time_matrix = true ∧
    (ORDataModel_build cachePair15 [] [orderTW] false 1).matrix =
      [[0, 9], [9, 0]] ∧
    get_time_matrix_as_array cachePair15 [1, 5] = [[0, 9], [9, 0]] ∧
    get_distance_matrix_as_array cachePair15 [1, 5] = [[0, 7], [7, 0]] := by
  refine ⟨rfl, ?_, ?_, ?_⟩ <;> decide

/-- CLAIM C2, amended: the built instance selects the time matrix if and only
if `use_time_windows` is requested OR at least one input order carries a
complete (start and end non-null) time window; only when both fail is the
distance matrix selected. -/
theorem matrix_selection_or_semantics (cache : List MatrixEntry)
    (vehicles : List Vehicle) (orders : List Order) (use_time_windows : Bool)
    (depot_id : Nat) :
    ((ORDataModel_build cache vehicles orders use_time_windows
        depot_id).use_time_matrix = true ↔
      (use_time_windows = true ∨
        ∃ o ∈ orders,
          o.time_window_start ≠ none ∧ o.time_window_end ≠ none)) ∧
    (ORDataModel_build cache vehicles orders use_time_windows depot_id).matrix =
      (if (ORDataModel_build cache vehicles orders use_time_windows
            depot_id).use_time_matrix then
        get_time_matrix_as_array cache
          (depot_id :: orders.map (fun o => o.shop_id))
      else
        get_distance_matrix_as_array cache
          (depot_id :: orders.map (fun o => o.shop_id))) := by
  constructor
  · have hflag : (ORDataModel_build cache vehicles orders use_time_windows
        depot_id).use_time_matrix =
        (use_time_window orders || use_time_windows) := rfl
    rw [hflag]
    constructor
    · intro h
      rcases (Bool.or_eq_true _ _).mp h with h1 | h1
      · right
        simpa [use_time_window, List.any_eq_true, Bool.and_eq_true,
          Option.isSome_iff_ne_none] using h1
      · left
        exact h1
    · intro h
      rcases h with h1 | h1
      · exact (Bool.or_eq_true _ _).mpr (Or.inr h1)
      · refine (Bool.or_eq_true _ _).mpr (Or.inl ?_)
        simpa [use_time_window, List.any_eq_true, Bool.and_eq_true,
          Option.isSome_iff_ne_none] using h1
  · by_cases h : (use_time_window orders || use_time_windows) = true
    · simp only [ORDataModel_build, h, if_true]
    · simp only [ORDataModel_build, Bool.not_eq_true .. |>.mp h,
        Bool.false_eq_true, if_false]

theorem priority_fold_untouched (l : List Order) :
    ∀ (m : Nat → Option Nat) (s : Nat), (∀ o ∈ l, o.shop_id ≠ s) →
    (l.foldl (fun m o => fun t =>
      if t = o.shop_id then some (penaltyValue o.priority) else m t) m) s
      = m s := by
  induction l with
  | nil =>
    intro m s _
    rfl
  | cons o rest ih =>
    intro m s hs
    simp only [List.foldl_cons]
    rw [ih _ s (fun o2 h2 => hs o2 (List.mem_cons_of_mem o h2))]
    have hso : s ≠ o.shop_id := fun he =>
      hs o (List.mem_cons_self o rest) he.symm
    simp [hso]

/-- CLAIM C9, counterexample: for the same-shop input [high, medium, high] the
shop's node penalty is 100000 (the LAST order wins), so although a later order
than the first high one has medium priority, the node is not skippable: no
disjunction is added for it. -/
theorem later_medium_does_not_make_high_skippable :
    shop_priority_map ordersHMH 5 = some 100000 ∧
    build_penalties 1 (1 :: ordersHMH.map (fun o => o.shop_id)) ordersHMH =
      [0, 100000, 100000, 100000] ∧
    add_penalties (ORDataModel_build [] [⟨3, none⟩] ordersHMH false 1) = [] ∧
    ¬ (100000 : Nat) < 10000 := by
  refine ⟨?_, ?_, ?_, by decide⟩ <;> decide

/-- CLAIM C9, amended: when several input orders share the same shop, the
builder assigns that shop's node the single penalty of whichever of those
orders appears LAST in the input list; in particular a high-priority order's
node is skippable (penalty below 10000) exactly when the last order for that
shop does not have high priority. -/
theorem last_order_determines_shop_penalty (orders l1 l2 : List Order)
    (o : Order) (s : Nat) (hdecomp : orders = l1 ++ o :: l2)
    (hshop : o.shop_id = s) (hlast : ∀ o2 ∈ l2, o2.shop_id ≠ s) :
    shop_priority_map orders s = some (penaltyValue o.priority) ∧
    (penaltyValue o.priority < 10000 ↔ o.priority ≠ some Priority.high) ∧
    ∀ (depot_id : Nat) (all_nodes : List Nat) (i : Nat),
      s ≠ depot_id → all_nodes[i]? = some s →
      (build_penalties depot_id all_nodes orders)[i]? =
        some (penaltyValue o.priority) := by
  have hmap : shop_priority_map orders s = some (penaltyValue o.priority) := by
    subst hdecomp
    unfold shop_priority_map
    rw [List.foldl_append, List.foldl_cons]
    rw [priority_fold_untouched l2 _ s hlast]
    simp [hshop]
  refine ⟨hmap, ?_, ?_⟩
  · rcases hp : o.priority with _ | p
    · decide
    · cases p <;> decide
  · intro depot_id all_nodes i hsd hnode
    unfold build_penalties
    rw [List.getElem?_map, hnode]
    simp only [Option.map_some']
    rw [if_neg hsd, hmap]
    rfl

/-- Witness for the amended C9 theorem at a concrete input: the high-priority
order for shop 5 followed by a medium-priority order for the same shop, the
medium one being last. -/
theorem last_order_determines_shop_penalty_witness :
    (ordersHM = [⟨1, 5, none, none, some Priority.high⟩] ++
      (⟨2, 5, none, none, some Priority.medium⟩ : Order) :: []) ∧
    (Order.shop_id ⟨2, 5, none, none, some Priority.medium⟩ = 5) ∧
    (∀ o2 ∈ ([] : List Order), o2.shop_id ≠ 5) ∧
    (shop_priority_map ordersHM 5 =
        some (penaltyValue (some Priority.medium)) ∧
      (penaltyValue (some Priority.medium) < 10000 ↔
        (some Priority.medium : Option Priority) ≠ some Priority.high) ∧
      ∀ (depot_id : Nat) (all_nodes : List Nat) (i : Nat),
        5 ≠ depot_id → all_nodes[i]? = some 5 →
        (build_penalties depot_id all_nodes ordersHM)[i]? =
          some (penaltyValue (some Priority.medium))) :=
  ⟨rfl, rfl, by simp,
   last_order_determines_shop_penalty ordersHM
     [⟨1, 5, none, none, some Priority.high⟩] []
     ⟨2, 5, none, none, some Priority.medium⟩ 5 rfl rfl (by simp)⟩

/-- CLAIM C5: for every non-depot node of an instance, when its penalty is
strictly below 10000 the solver registers a disjunction letting the node be
skipped at exactly that penalty (and no other cost), and when its penalty is
at or above 10000 no disjunction is registered for it, so under the solver's
disjunction semantics the node is visited in every admissible assignment. -/
theorem penalty_threshold_disjunctions (data : ORData) (i : Nat)
    (h1 : 1 ≤ i) (h2 : i < data.matrix.length) :
    (data.penalties.getD i 0 < 10000 →
      ((i, data.penalties.getD i 0) ∈ add_penalties data ∧
       ∀ p, (i, p) ∈ add_penalties data → p = data.penalties.getD i 0)) ∧
    (10000 ≤ data.penalties.getD i 0 →
      ((∀ p, (i, p) ∉ add_penalties data) ∧
       ∀ visited : Nat → Bool,
         validSolution (add_penalties data) data.matrix.length visited →
         visited i = true)) := by
  have hrange : i ∈ List.range' 1 (data.matrix.length - 1) := by
    have hlt : i < 1 + (data.matrix.length - 1) := by omega
    exact List.mem_range'_1.mpr ⟨h1, hlt⟩
  constructor
  · intro hpen
    constructor
    · refine List.mem_filterMap.mpr ⟨i, hrange, ?_⟩
      rw [if_neg (not_le.mpr hpen)]
    · intro p hp
      rcases List.mem_filterMap.mp hp with ⟨j, hj, hfj⟩
      by_cases hcase : 10000 ≤ data.penalties.getD j 0
      · rw [if_pos hcase] at hfj
        exact absurd hfj (by simp)
      · rw [if_neg hcase] at hfj
        have hji : j = i := congrArg Prod.fst (Option.some_injective _ hfj)
        have hpj : data.penalties.getD j 0 = p :=
          congrArg Prod.snd (Option.some_injective _ hfj)
        rw [← hpj, hji]
  · intro hpen
    have hnot : ∀ p, (i, p) ∉ add_penalties data := by
      intro p hp
      rcases List.mem_filterMap.mp hp with ⟨j, hj, hfj⟩
      by_cases hcase : 10000 ≤ data.penalties.getD j 0
      · rw [if_pos hcase] at hfj
        exact absurd hfj (by simp)
      · rw [if_neg hcase] at hfj
        have hji : j = i := congrArg Prod.fst (Option.some_injective _ hfj)
        rw [hji] at hcase
        exact hcase hpen
    refine ⟨hnot, ?_⟩
    intro visited hvalid
    by_contra hvis
    have hfalse : visited i = false := by
      cases hv : visited i
      · rfl
      · exact absurd hv hvis
    rcases hvalid i h1 h2 hfalse with ⟨p, hp⟩
    exact hnot p hp

/-- Witness for C5 at a concrete input: the built instance over one
medium-priority order (penalty 5000 at node 1, skippable). -/
theorem penalty_threshold_disjunctions_witness :
    1 ≤ 1 ∧ 1 < dataMedium.matrix.length ∧
    ((dataMedium.penalties.getD 1 0 < 10000 →
      ((1, dataMedium.penalties.getD 1 0) ∈ add_penalties dataMedium ∧
       ∀ p, (1, p) ∈ add_penalties dataMedium →
         p = dataMedium.penalties.getD 1 0)) ∧
    (10000 ≤ dataMedium.penalties.getD 1 0 →
      ((∀ p, (1, p) ∉ add_penalties dataMedium) ∧
       ∀ visited : Nat → Bool,
         validSolution (add_penalties dataMedium) dataMedium.matrix.length
           visited →
         visited 1 = true))) :=
  ⟨by decide, by decide,
   penalty_threshold_disjunctions dataMedium 1 (by decide) (by decide)⟩

/-- CLAIM C3, counterexample: with no cached entry for the distinct pair
(1,5), `get_distance(1,5)` triggers ZERO provider calls (not one), stores no
cache entry (not one canonical entry), and returns the not-found result. -/
theorem get_distance_miss_makes_no_provider_call :
    get_distance_run ⟨[], []⟩ 1 5 = (none, ⟨[], []⟩) ∧
    (get_distance_run ⟨[], []⟩ 1 5).2.provider_calls.length = 0 ∧
    (get_distance_run ⟨[], []⟩ 1 5).2.cache = [] ∧
    ¬ ((get_distance_run ⟨[], []⟩ 1 5).2.provider_calls.length = 1) := by
  refine ⟨?_, ?_, ?_, ?_⟩ <;> decide

/-- CLAIM C3, amended: `get_distance` is read-only and side-effect-free on
EVERY call, hit or miss: it never calls the provider and never writes the
cache, and on a miss for a distinct pair it returns the not-found result
instead of lazily populating the cache (population happens only in the
refresh path). -/
theorem get_distance_read_only (st : MatrixManagerState) (a b : Nat) :
    (get_distance_run st a b).2 = st ∧
    (a ≠ b →
      st.cache.find? (fun e =>
        e.shop_id_1 == min a b && e.shop_id_2 == max a b) = none →
      (get_distance_run st a b).1 = none) := by
  constructor
  · unfold get_distance_run
    by_cases hab : a = b
    · simp [hab]
    · simp only [if_neg hab]
      rcases hfind : st.cache.find? (fun e =>
          e.shop_id_1 == min a b && e.shop_id_2 == max a b) with _ | e
      · rw [hfind]
      · rw [hfind]
  · intro hab hfind
    unfold get_distance_run
    rw [if_neg hab]
    simp only [hfind]

/-- Witness for the amended C3 theorem at a concrete input: the distinct
uncached pair (2,9) on the empty state. -/
theorem get_distance_read_only_witness :
    (2 : Nat) ≠ 9 ∧
    (([] : List MatrixEntry).find? (fun e =>
        e.shop_id_1 == min 2 9 && e.shop_id_2 == max 2 9) = none) ∧
    ((get_distance_run ⟨[], []⟩ 2 9).2 = ⟨[], []⟩ ∧
     (get_distance_run ⟨[], []⟩ 2 9).1 = none) :=
  ⟨by decide, rfl,
   ⟨(get_distance_read_only ⟨[], []⟩ 2 9).1,
    (get_distance_read_only ⟨[], []⟩ 2 9).2 (by decide) rfl⟩⟩

theorem save_run_all_ok (committed : List MatrixEntry)
    (saveOk : Nat → Nat → Bool) (l : List DistanceData)
    (hok : ∀ d ∈ l, saveOk d.shop_id_1 d.shop_id_2 = true) :
    ∀ st : List MatrixEntry,
    l.foldl (fun st dd =>
        save_distance_to_db_run committed st dd
          (saveOk dd.shop_id_1 dd.shop_id_2)) st =
      l.foldl save_distance_to_db st := by
  induction l with
  | nil =>
    intro st
    rfl
  | cons d rest ih =>
    intro st
    simp only [List.foldl_cons]
    rw [hok d (List.mem_cons_self d rest)]
    exact ih (fun d2 h2 => hok d2 (List.mem_cons_of_mem d h2))
      (save_distance_to_db st d)

/-- CLAIM C8, counterexample: one pending shop with three computed pairs whose
MIDDLE save raises. The handler at matrix_manager.py lines 288-293 calls
`self.db.rollback()`, discarding the first staged pair of the same batch, the
save loop continues, the third pair is staged again and the per-shop commit
lands it: the committed batch is 1 entry out of 3 — neither the full batch nor
a full rollback — and the shop is still flipped to "updated". -/
theorem mid_batch_save_failure_commits_partial_batch :
    (process_pending_updates providerConst (fun _ => true) (fun _ => true)
      saveOkNot13 stPartial).matrix = [⟨1, 4, "S", "C", 5, 6, none⟩] ∧
    (process_pending_updates providerConst (fun _ => true) (fun _ => true)
      saveOkNot13 stPartial).shops =
      [⟨1, "S", 0, 0, "updated"⟩, ⟨2, "A", 0, 0, "updated"⟩,
       ⟨3, "B", 0, 0, "updated"⟩, ⟨4, "C", 0, 0, "updated"⟩] ∧
    (1 : Nat) ≠ 0 ∧ (1 : Nat) ≠ 3 := by
  refine ⟨?_, ?_, ?_, ?_⟩ <;> decide

/-- CLAIM C8, amended: an exception in one source location's per-shop try
block or a failure of its commit rolls back exactly that location's staged
work and the loop continues with the next pending location — the committed
outcome of `process_pending_updates` is exactly the per-location fold over the
non-failing locations, so one failing location never aborts the refresh. A
failure inside an INDIVIDUAL save, however, rolls the session back to the
committed state — discarding the batch's earlier staged writes — while the
remaining saves still stage and the per-shop commit lands them: the location
commits the partial batch formed by the writes after its last failing save. -/
theorem refresh_failure_semantics (provider : ProviderOracle)
    (computeOk commitOk : Nat → Bool) (saveOk : Nat → Nat → Bool)
    (st0 : DbState) (committed staged : List MatrixEntry)
    (l1 l2 : List DistanceData) (dd : DistanceData)
    (hfail : saveOk dd.shop_id_1 dd.shop_id_2 = false)
    (hok : ∀ d ∈ l2, saveOk d.shop_id_1 d.shop_id_2 = true) :
    process_pending_updates provider computeOk commitOk saveOk st0 =
      refreshSkipFailures provider computeOk commitOk saveOk st0 ∧
    (l1 ++ dd :: l2).foldl (fun st d =>
        save_distance_to_db_run committed st d
          (saveOk d.shop_id_1 d.shop_id_2)) staged =
      l2.foldl save_distance_to_db committed := by
  refine ⟨process_pending_isolates_failures provider computeOk commitOk
    saveOk st0, ?_⟩
  rw [List.foldl_append, List.foldl_cons, hfail]
  exact save_run_all_ok committed saveOk l2 hok committed

/-- Witness for the amended C8 theorem at a concrete input: the partial-batch
scenario, with the batch [(1,2), (1,3), (1,4)] failing at (1,3). -/
theorem refresh_failure_semantics_witness :
    saveOkNot13 1 3 = false ∧
    (∀ d ∈ [(⟨1, 4, "S", "C", 5, 6, []⟩ : DistanceData)],
      saveOkNot13 d.shop_id_1 d.shop_id_2 = true) ∧
    (process_pending_updates providerConst (fun _ => true) (fun _ => true)
        saveOkNot13 stPartial =
      refreshSkipFailures providerConst (fun _ => true) (fun _ => true)
        saveOkNot13 stPartial ∧
     ([(⟨1, 2, "S", "A", 5, 6, []⟩ : DistanceData)] ++
        (⟨1, 3, "S", "B", 5, 6, []⟩ : DistanceData) ::
          [(⟨1, 4, "S", "C", 5, 6, []⟩ : DistanceData)]).foldl
        (fun st d => save_distance_to_db_run [] st d
          (saveOkNot13 d.shop_id_1 d.shop_id_2)) [] =
      [(⟨1, 4, "S", "C", 5, 6, []⟩ : DistanceData)].foldl
        save_distance_to_db []) :=
  ⟨by decide, by decide,
   refresh_failure_semantics providerConst (fun _ => true) (fun _ => true)
     saveOkNot13 stPartial [] [] [⟨1, 2, "S", "A", 5, 6, []⟩]
     [⟨1, 4, "S", "C", 5, 6, []⟩] ⟨1, 3, "S", "B", 5, 6, []⟩
     (by decide) (by decide)⟩

theorem fixed_foldlM_infeasible (orders : List Order)
    (solver : Vehicle → List Order → Option (List (List Nat)))
    (l : List (Vehicle × PredefinedRoute))
    (hsolver : ∀ vr ∈ l, solver vr.1
      (orders.filter (fun o => vr.2.shops.contains o.shop_id)) = none) :
    ∀ acc : List RouteResult × List Order,
    l.foldlM (fixed_vehicle_step orders solver) acc =
      Except.ok (acc.1, remaining_after orders l acc.2) := by
  induction l with
  | nil =>
    intro acc
    rfl
  | cons vr rest ih =>
    intro acc
    have hvr := hsolver vr (List.mem_cons_self vr rest)
    have hrest : ∀ v2 ∈ rest, solver v2.1
        (orders.filter (fun o => v2.2.shops.contains o.shop_id)) = none :=
      fun v2 h2 => hsolver v2 (List.mem_cons_of_mem vr h2)
    have hstep : fixed_vehicle_step orders solver acc vr =
        Except.ok (acc.1, acc.2.filter (fun o =>
          !((orders.filter
            (fun o2 => vr.2.shops.contains o2.shop_id)).contains o))) := by
      unfold fixed_vehicle_step
      by_cases hemp :
          (orders.filter (fun o => vr.2.shops.contains o.shop_id)).isEmpty
      · rw [if_pos hemp]
      · rw [if_neg hemp, hvr]
        rfl
    rw [List.foldlM_cons, hstep]
    show rest.foldlM (fixed_vehicle_step orders solver)
        (acc.1, acc.2.filter (fun o =>
          !((orders.filter
            (fun o2 => vr.2.shops.contains o2.shop_id)).contains o))) = _
    rw [ih hrest]
    rfl

theorem remaining_keeps_not_mem (orders : List Order) (o : Order) :
    ∀ (l : List (Vehicle × PredefinedRoute)) (rem : List Order), o ∉ rem →
    o ∉ remaining_after orders l rem := by
  intro l
  induction l with
  | nil =>
    intro rem h
    exact h
  | cons vr rest ih =>
    intro rem h
    show o ∉ remaining_after orders rest (rem.filter _)
    apply ih
    intro hm
    exact h (List.mem_filter.mp hm).1

theorem remaining_removes (orders : List Order) (o : Order) (ho : o ∈ orders) :
    ∀ (l : List (Vehicle × PredefinedRoute)) (vr : Vehicle × PredefinedRoute),
      vr ∈ l → o.shop_id ∈ vr.2.shops →
    ∀ rem : List Order, o ∉ remaining_after orders l rem := by
  intro l
  induction l with
  | nil =>
    intro vr hvr
    exact absurd hvr (List.not_mem_nil vr)
  | cons hd rest ih =>
    intro vr hvr hs rem
    rcases List.mem_cons.mp hvr with heq | hmem
    · subst heq
      show o ∉ remaining_after orders rest (rem.filter _)
      apply remaining_keeps_not_mem
      intro hm
      have hcond := (List.mem_filter.mp hm).2
      have hoin : o ∈ orders.filter
          (fun o2 => vr.2.shops.contains o2.shop_id) :=
        List.mem_filter.mpr ⟨ho, List.elem_iff.mpr hs⟩
      have hcont : (orders.filter
          (fun o2 => vr.2.shops.contains o2.shop_id)).contains o = true :=
        List.elem_iff.mpr hoin
      rw [hcont] at hcond
      exact Bool.false_ne_true hcond
    · show o ∉ remaining_after orders rest (rem.filter _)
      exact ih vr hmem hs _

/-- CLAIM C10, counterexample: the removal is NOT independent of the
single-vehicle solve outcome. With one order for shop 7 and one fixed vehicle
covering shop 7, a solver that finds a solution makes the fixed phase raise
ValueError at the two-variable unpack (controller.py line 111) BEFORE the
removal at line 69 runs — no remaining pool is ever produced — while the
infeasible solver completes the phase with the order removed. -/
theorem successful_fixed_solve_aborts_before_removal :
    optimize_orchestrator_fixed ordersShop7 fixedCover7
      (fun _ _ => some [[1]]) = Except.error PyError.valueError ∧
    optimize_orchestrator_fixed ordersShop7 fixedCover7
      (fun _ _ => none) = Except.ok ([], []) ∧
    (Except.error PyError.valueError :
      Except PyError (List RouteResult × List Order)) ≠
      Except.ok ([], []) := by
  refine ⟨rfl, rfl, ?_⟩
  intro h
  exact Except.noConfusion h

/-- CLAIM C10, amended: whenever every attempted single-vehicle solve finds no
solution within its time limit — the only outcome under which the fixed loop
completes, since a found solution raises in the unpack at controller.py line
111 and aborts the orchestration before the removal at line 69 — every input
order whose shop id lies on a fixed vehicle's predefined route is removed
from the remaining pool before the free-vehicle solve and is never offered to
the free vehicles. -/
theorem fixed_route_orders_removed_when_unsolved (orders : List Order)
    (fixed : List (Vehicle × PredefinedRoute))
    (solver : Vehicle → List Order → Option (List (List Nat)))
    (vr : Vehicle × PredefinedRoute) (o : Order)
    (hsolver : ∀ v2 ∈ fixed, solver v2.1
      (orders.filter (fun o2 => v2.2.shops.contains o2.shop_id)) = none)
    (hvr : vr ∈ fixed) (ho : o ∈ orders) (hs : o.shop_id ∈ vr.2.shops) :
    optimize_orchestrator_fixed orders fixed solver =
      Except.ok ([], remaining_after orders fixed orders) ∧
    o ∉ remaining_after orders fixed orders :=
  ⟨fixed_foldlM_infeasible orders solver fixed hsolver ([], orders),
   remaining_removes orders o ho fixed vr hvr hs orders⟩

/-- Witness for the amended C10 theorem at a concrete input: one order for
shop 7 and one fixed vehicle covering shop 7, under the infeasible solver. -/
theorem fixed_route_orders_removed_when_unsolved_witness :
    (∀ v2 ∈ fixedCover7, (fun (_ : Vehicle) (_ : List Order) =>
      (none : Option (List (List Nat)))) v2.1
      (ordersShop7.filter (fun o2 => v2.2.shops.contains o2.shop_id)) = none) ∧
    ((⟨3, none⟩, ⟨1, [7]⟩) : Vehicle × PredefinedRoute) ∈ fixedCover7 ∧
    (⟨1, 7, none, none, none⟩ : Order) ∈ ordersShop7 ∧
    (7 : Nat) ∈ [7] ∧
    (optimize_orchestrator_fixed ordersShop7 fixedCover7
        (fun _ _ => none) =
      Except.ok ([], remaining_after ordersShop7 fixedCover7 ordersShop7) ∧
     (⟨1, 7, none, none, none⟩ : Order) ∉
       remaining_after ordersShop7 fixedCover7 ordersShop7) :=
  ⟨by decide, by decide, by decide, by decide,
   fixed_route_orders_removed_when_unsolved ordersShop7 fixedCover7
     (fun _ _ => none) (⟨3, none⟩, ⟨1, [7]⟩) ⟨1, 7, none, none, none⟩
     (by decide) (by decide) (by decide) (by decide)⟩

theorem single_solved_err (v : Vehicle) (os : List Order)
    (visits : List (List Nat)) :
    ∃ e, optimize_single_vehicle_route v os (some visits) =
      Except.error e := by
  have hred : optimize_single_vehicle_route v os (some visits) =
      (if (visits.map (fun vl =>
          (⟨extract_route_nodes (1 :: os.map (fun o => o.shop_id)) vl⟩ :
            RouteData))).length = 2
       then Except.error PyError.typeError
       else Except.error PyError.valueError) := rfl
  rw [hred]
  by_cases h : (visits.map (fun vl =>
      (⟨extract_route_nodes (1 :: os.map (fun o => o.shop_id)) vl⟩ :
        RouteData))).length = 2
  · exact ⟨PyError.typeError, by rw [if_pos h]⟩
  · exact ⟨PyError.valueError, by rw [if_neg h]⟩

theorem free_solved_err (os : List Order) (vs : List Vehicle)
    (visits : List (List Nat)) :
    ∃ e, optimize_free_vehicles os vs (some visits) = Except.error e := by
  have hred : optimize_free_vehicles os vs (some visits) =
      (if (visits.map (fun vl =>
          (⟨extract_route_nodes (1 :: os.map (fun o => o.shop_id)) vl⟩ :
            RouteData))).length = 2
       then Except.error PyError.typeError
       else Except.error PyError.valueError) := rfl
  rw [hred]
  by_cases h : (visits.map (fun vl =>
      (⟨extract_route_nodes (1 :: os.map (fun o => o.shop_id)) vl⟩ :
        RouteData))).length = 2
  · exact ⟨PyError.typeError, by rw [if_pos h]⟩
  · exact ⟨PyError.valueError, by rw [if_neg h]⟩

theorem single_result_cases (v : Vehicle) (os : List Order)
    (s : Option (List (List Nat))) :
    optimize_single_vehicle_route v os s = Except.ok none ∨
    ∃ e, optimize_single_vehicle_route v os s = Except.error e := by
  rcases s with _ | visits
  · exact Or.inl rfl
  · exact Or.inr (single_solved_err v os visits)

theorem free_ok_empty (os : List Order) (vs : List Vehicle)
    (s : Option (List (List Nat))) (routes : List RouteResult)
    (h : optimize_free_vehicles os vs s = Except.ok routes) : routes = [] := by
  rcases s with _ | visits
  · have h2 : Except.ok ([] : List RouteResult) = Except.ok routes := h
    cases h2
    rfl
  · rcases free_solved_err os vs visits with ⟨e, he⟩
    rw [he] at h
    exact Except.noConfusion h

theorem fixed_vehicle_step_ok_fst (orders : List Order)
    (solver : Vehicle → List Order → Option (List (List Nat)))
    (acc acc2 : List RouteResult × List Order)
    (vr : Vehicle × PredefinedRoute)
    (h : fixed_vehicle_step orders solver acc vr = Except.ok acc2) :
    acc2.1 = acc.1 := by
  unfold fixed_vehicle_step at h
  by_cases hemp :
      (orders.filter (fun o => vr.2.shops.contains o.shop_id)).isEmpty
  · rw [if_pos hemp] at h
    cases h
    rfl
  · rw [if_neg hemp] at h
    rcases single_result_cases vr.1
        (orders.filter (fun o => vr.2.shops.contains o.shop_id))
        (solver vr.1
          (orders.filter (fun o => vr.2.shops.contains o.shop_id))) with
      hok | ⟨e, herr⟩
    · rw [hok] at h
      cases h
      rfl
    · rw [herr] at h
      have h2 : (Except.error e :
          Except PyError (List RouteResult × List Order)) =
          Except.ok acc2 := h
      exact Except.noConfusion h2

theorem fixed_foldlM_fst_nil (orders : List Order)
    (solver : Vehicle → List Order → Option (List (List Nat))) :
    ∀ (l : List (Vehicle × PredefinedRoute))
      (acc : List RouteResult × List Order)
      (res : List RouteResult × List Order),
    l.foldlM (fixed_vehicle_step orders solver) acc = Except.ok res →
    res.1 = acc.1 := by
  intro l
  induction l with
  | nil =>
    intro acc res h
    have h2 : Except.ok acc = Except.ok res := h
    cases h2
    rfl
  | cons vr rest ih =>
    intro acc res h
    rw [List.foldlM_cons] at h
    rcases hstep : fixed_vehicle_step orders solver acc vr with e | acc2
    · rw [hstep] at h
      have h2 : (Except.error e :
          Except PyError (List RouteResult × List Order)) = Except.ok res := h
      exact Except.noConfusion h2
    · rw [hstep] at h
      have h2 : rest.foldlM (fixed_vehicle_step orders solver) acc2 =
          Except.ok res := h
      rw [ih acc2 res h2]
      exact fixed_vehicle_step_ok_fst orders solver acc acc2 vr hstep

/-- CLAIM C4: in the orchestrator's result, a fixed vehicle whose
predefined route matches no input order contributes no route, and a vehicle of
the free-vehicle sub-problem with an empty stop list contributes no route;
only vehicles with a non-depot stop could ever appear — in fact every
completed orchestration returns EMPTY route lists for both phases. The claimed
exclusions hold because the only completing solve outcome is the infeasible
one: a found solution raises in the controller's two-variable unpack of
the solver's routes dict, so the appending branch of the fixed loop and
the non-empty-nodes filter of the free phase (the cited lines 121-133 and
248-272) are unreachable on success, and the infeasible outcome contributes no
routes either. -/
theorem completed_orchestrator_routes_empty (orders : List Order)
    (fixed : List (Vehicle × PredefinedRoute)) (free : List Vehicle)
    (fixed_solver : Vehicle → List Order → Option (List (List Nat)))
    (free_search : Option (List (List Nat)))
    (p : List RouteResult × List RouteResult)
    (h : optimize_orchestrator orders fixed free fixed_solver free_search =
      Except.ok p) :
    p.1 = [] ∧ p.2 = [] := by
  unfold optimize_orchestrator at h
  rcases hfix : optimize_orchestrator_fixed orders fixed fixed_solver with
    e | res
  · rw [hfix] at h
    have h2 : (Except.error e :
        Except PyError (List RouteResult × List RouteResult)) =
        Except.ok p := h
    exact Except.noConfusion h2
  · rw [hfix] at h
    have hfst : res.1 = [] :=
      fixed_foldlM_fst_nil orders fixed_solver fixed ([], orders) res hfix
    have h2 : (if (!free.isEmpty && !res.2.isEmpty) = true then
        (match optimize_free_vehicles res.2 free free_search with
         | Except.error e2 => Except.error e2
         | Except.ok freeRoutes => Except.ok (res.1, freeRoutes))
      else Except.ok (res.1, [])) = Except.ok p := h
    by_cases hc : (!free.isEmpty && !res.2.isEmpty) = true
    · rw [if_pos hc] at h2
      rcases hfree : optimize_free_vehicles res.2 free free_search with
        e2 | fr
      · rw [hfree] at h2
        have h3 : (Except.error e2 :
            Except PyError (List RouteResult × List RouteResult)) =
            Except.ok p := h2
        exact Except.noConfusion h3
      · rw [hfree] at h2
        have h3 : Except.ok (res.1, fr) = Except.ok p := h2
        cases h3
        exact ⟨hfst, free_ok_empty res.2 free free_search fr hfree⟩
    · rw [if_neg hc] at h2
      have h3 : Except.ok (res.1, ([] : List RouteResult)) = Except.ok p := h2
      cases h3
      exact ⟨hfst, rfl⟩

/-- Witness for the C4 theorem at a concrete input: no fixed vehicles, one
free vehicle, one order, infeasible free solve — the orchestration completes
with both route lists empty. -/
theorem completed_orchestrator_routes_empty_witness :
    optimize_orchestrator ordersShop7 [] [⟨10, none⟩] (fun _ _ => none)
      none = Except.ok (([], []) : List RouteResult × List RouteResult) ∧
    ((([], []) : List RouteResult × List RouteResult).1 = [] ∧
     (([], []) : List RouteResult × List RouteResult).2 = []) :=
  ⟨rfl,
   completed_orchestrator_routes_empty ordersShop7 [] [⟨10, none⟩]
     (fun _ _ => none) none ([], []) rfl⟩

/-- CLAIM C1: when the solver finds no solution within its time limit
(`run_ortools_solver` returns the empty result `(set(), {})`) on every
sub-problem, the optimization run raises no exception and still commits the
job as PLANNED — the success status — with an empty route list; no branch of
`run_optimization_task` sets the job status to FAILED. This evaluates the
embedded pipeline exactly at the claim's failing input and exhibits the
divergence from the claimed behaviour. -/
theorem infeasible_solver_commits_planned_empty (orders : List Order)
    (fixed : List (Vehicle × PredefinedRoute)) (free : List Vehicle) :
    run_optimization_task orders fixed free (fun _ _ => none) none =
      some (JobStatus.PLANNED, []) ∧
    JobStatus.PLANNED ≠ JobStatus.FAILED := by
  constructor
  · have hfix : optimize_orchestrator_fixed orders fixed (fun _ _ => none) =
        Except.ok ([], remaining_after orders fixed orders) :=
      fixed_foldlM_infeasible orders (fun _ _ => none) fixed
        (fun _ _ => rfl) ([], orders)
    have horch : optimize_orchestrator orders fixed free
        (fun _ _ => none) none =
        Except.ok (([], []) : List RouteResult × List RouteResult) := by
      unfold optimize_orchestrator
      rw [hfix]
      show (if (!free.isEmpty &&
            !(remaining_after orders fixed orders).isEmpty) = true then
          (match optimize_free_vehicles
              (remaining_after orders fixed orders) free none with
           | Except.error e => Except.error e
           | Except.ok freeRoutes =>
               Except.ok (([] : List RouteResult), freeRoutes))
        else Except.ok ([], [])) = Except.ok ([], [])
      by_cases hc : (!free.isEmpty &&
          !(remaining_after orders fixed orders).isEmpty) = true
      · rw [if_pos hc]
        rfl
      · rw [if_neg hc]
    unfold run_optimization_task
    rw [horch]
    rfl
  · decide

end TMS
